import Mathlib

/-!
Verification development for the Smart Research Summarizer backend
(`backend/app.py`).

The Python source is shallowly embedded below.  External collaborators are
modelled at the seams the code itself uses:

* the PDF library: a PDF file is represented by the list of page texts that
  `page.extract_text()` would produce (`none` for a page whose extraction
  yields `None`, which the code coerces to `""` with `or ""`); an unreadable
  PDF (the `except` branch) is the outer `none`;
* UTF-8 text decoding of a TXT file: `none` on decode error, otherwise the
  decoded file content;
* the Gemini remote call: a function from prompt to `Option String`
  (`get_gemini_response`'s result type), and, where the gateway internals
  themselves are at stake, a function from prompt to
  `Except String GeminiApiResponse` modelling `model.generate_content`
  (exception or structured response).  The `generation_config` argument
  only selects between two syntactic forms of the same single call and does
  not change the error handling, so it is not represented.

Python truthiness tests (`if not x:`) on optional strings and lists are
embedded explicitly (`pyTruthy`, `listTruthy`).  The `json.loads` call is
embedded as `json_loads`, a parser for the standard JSON grammar (integers
and decimal fractions; exponent-form numbers and `\uXXXX` escapes are not
modelled — no theorem below evaluates the parser on such inputs).
-/

/-- Python `str.split(sep)` for a one-character separator, on the character
list: always at least one (possibly empty) segment. -/
def splitCharList (sep : Char) : List Char → List (List Char)
  | [] => [[]]
  | c :: rest =>
    match splitCharList sep rest with
    | h :: t => if c = sep then [] :: h :: t else (c :: h) :: t
    | [] => [[]]

/-- Python `s.split(sep)` for a one-character separator. -/
def pySplit (s : String) (sep : Char) : List String :=
  (splitCharList sep s.data).map String.mk

/-- The whitespace characters removed by Python `str.strip()`. -/
def pyWs (c : Char) : Bool :=
  c = ' ' || c = '\t' || c = '\n' || c = '\r' || c = Char.ofNat 11 || c = Char.ofNat 12

/-- Python `s.strip()`. -/
def pyStrip (s : String) : String :=
  String.mk (((s.data.dropWhile pyWs).reverse.dropWhile pyWs).reverse)

/-- Python `s.lower()`. -/
def pyLower (s : String) : String :=
  String.mk (s.data.map Char.toLower)

/-- Python `s.endswith(suffix)`. -/
def pyEndsWith (s suf : String) : Bool :=
  decide (s.data.drop (s.data.length - suf.data.length) = suf.data)

/-- Python truthiness filter for an optional string: `None` and `""` are
falsy.  `pyTruthy o = some s` exactly when `o = some s` and `s ≠ ""`. -/
def pyTruthy : Option String → Option String
  | none => none
  | some s => if s = "" then none else some s

/-- Python truthiness filter for an optional list: `None` and `[]` are
falsy. -/
def listTruthy {α : Type} : Option (List α) → Option (List α)
  | none => none
  | some l => if l.isEmpty then none else some l

/-- The in-memory document store: the Python dict `document_content`
(key = filename, value = extracted text), embedded as an association list
whose head is the most recent write. -/
abbrev Store := List (String × String)

/-- The initial (empty) `document_content` dict. -/
def document_content : Store := []

/-- Dict update `d[k] = v`: the new binding shadows any previous one. -/
def DocumentStore.put (s : Store) (k v : String) : Store := (k, v) :: s

/-- Dict lookup `d.get(k)`: first (most recent) binding wins. -/
def DocumentStore.get (s : Store) (k : String) : Option String :=
  match s with
  | [] => none
  | (k', v) :: rest => if k' = k then some v else DocumentStore.get rest k

/-- `ALLOWED_EXTENSIONS = {'pdf', 'txt'}` -/
def ALLOWED_EXTENSIONS : List String := ["pdf", "txt"]

/-- `allowed_file`: `'.' in filename and filename.rsplit('.', 1)[1].lower()
in ALLOWED_EXTENSIONS`.  A filename contains a dot iff splitting on `"."`
gives at least two parts, and `rsplit('.', 1)[1]` is then the last part. -/
def allowed_file (filename : String) : Bool :=
  let parts := pySplit filename '.'
  decide (2 ≤ parts.length) && ALLOWED_EXTENSIONS.contains (pyLower (parts.getLastD ""))

/-- Python `file.readlines()` on content `s` (newline convention `\n`):
every line keeps its terminating newline; a final fragment without a
newline is kept as-is; the empty file gives `[]`. -/
def readlines (s : String) : List String :=
  let parts := pySplit s '\n'
  parts.dropLast.map (fun l => l ++ "\n") ++
    (if parts.getLastD "" = "" then [] else [parts.getLastD ""])

/-- The loop body of `extract_text_from_txt`:
`text += f"[Line {i + 1}] {line}"` for a non-blank line (the line still
carries its newline from `readlines`), `text += "\n"` for a blank one. -/
def txt_step (acc : String) (p : Nat × String) : String :=
  acc ++ (if pyStrip p.2 = "" then "\n"
          else "[Line " ++ toString (p.1 + 1) ++ "] " ++ p.2)

/-- Body of `extract_text_from_txt` after a successful `open`/decode. -/
def render_txt (content : String) : String :=
  (readlines content).enum.foldl txt_step ""

/-- `extract_text_from_txt`: `None` when reading/decoding raised, else the
annotated text. -/
def extract_text_from_txt : Option String → Option String
  | none => none
  | some content => some (render_txt content)

/-- The inner loop body of `extract_text_from_pdf` for 0-based page index
`pnum`: `text += f"[Page {page_num + 1}, Line {i + 1}] {line}\n"` for a
non-blank line of `page_text.split('\n')`, `text += "\n"` otherwise. -/
def pdf_line_step (pnum : Nat) (acc : String) (p : Nat × String) : String :=
  acc ++ (if pyStrip p.2 = "" then "\n"
          else "[Page " ++ toString (pnum + 1) ++ ", Line " ++ toString (p.1 + 1) ++ "] "
                ++ p.2 ++ "\n")

/-- The outer (per-page) loop body of `extract_text_from_pdf`:
`page_text = page.extract_text() or ""` then the line loop. -/
def pdf_page_step (acc : String) (pg : Nat × Option String) : String :=
  (pySplit (pg.2.getD "") '\n').enum.foldl (pdf_line_step pg.1) acc

/-- Body of `extract_text_from_pdf` after a successful parse. -/
def render_pdf (pages : List (Option String)) : String :=
  pages.enum.foldl pdf_page_step ""

/-- `extract_text_from_pdf`: `None` when `PdfReader` (or reading) raised,
else the annotated text built page by page. -/
def extract_text_from_pdf : Option (List (Option String)) → Option String
  | none => none
  | some pages => some (render_pdf pages)

/-- One part of a Gemini candidate's content (`parts[0].text`). -/
structure GeminiPart where
  text : String

/-- Content of a Gemini candidate. -/
structure GeminiContent where
  parts : List GeminiPart

/-- One Gemini candidate. -/
structure GeminiCandidate where
  content : GeminiContent

/-- The response object returned by `model.generate_content`. -/
structure GeminiApiResponse where
  candidates : List GeminiCandidate

/-- `get_gemini_response`: wraps the single `model.generate_content` call
(`remote`).  An exception, an empty `candidates` list, or an empty `parts`
list yields `None`; otherwise the first part's text is returned. -/
def get_gemini_response (remote : String → Except String GeminiApiResponse)
    (prompt : String) : Option String :=
  match remote prompt with
  | .error _ => none
  | .ok r =>
    match r.candidates with
    | [] => none
    | c :: _ =>
      match c.content.parts with
      | [] => none
      | p :: _ => some p.text

/-- The summarization prompt built in `upload_document`. -/
def summary_prompt (extracted_text : String) : String :=
  "Summarize the following document in no more than 150 words. "
    ++ "Focus on the main points. Document content: " ++ extracted_text

/-- The answering prompt built in `ask_question`. -/
def ask_prompt (query doc_text : String) : String :=
  "Based on the following document, answer the question: \x27" ++ query
    ++ "\x27. Provide justification using [Page X, Line Y] or [Line Y] markers.\n\n"
    ++ "Document content: " ++ doc_text

/-- The question-generation prompt built in `generate_challenge_questions`. -/
def challenge_prompt (doc_text : String) : String :=
  "Generate three distinct logic-based or comprehension-focused questions "
    ++ "based on the following document. Provide them as a JSON array: "
    ++ "[\"Q1\", \"Q2\", \"Q3\"]\n\nDocument content: " ++ doc_text

/-- The per-item evaluation prompt built in `evaluate_challenge_answers`. -/
def eval_prompt (user_answer question doc_text : String) : String :=
  "Based on the document, evaluate if this answer: \x27" ++ user_answer
    ++ "\x27 is correct for the question: \x27" ++ question
    ++ "\x27. Give a verdict (Correct/Partially Correct/Incorrect) and justify "
    ++ "using [Page X, Line Y] or [Line Y] markers.\n\nDocument content: " ++ doc_text

/-- A JSON value, as produced by `json.loads`.  Numbers are represented as
`mantissa / 10 ^ scale` scaled decimals. -/
inductive Json where
  | null : Json
  | bool (b : Bool) : Json
  | num (mantissa : Int) (scale : Nat) : Json
  | str (s : String) : Json
  | arr (items : List Json) : Json
  | obj (fields : List (String × Json)) : Json

/-- JSON insignificant whitespace. -/
def jsonWs (c : Char) : Bool :=
  c = ' ' || c = '\t' || c = '\n' || c = '\r'

/-- Skip leading JSON whitespace. -/
def skipWs : List Char → List Char
  | [] => []
  | c :: cs => if jsonWs c then skipWs cs else c :: cs

/-- Decode a single-character JSON string escape. -/
def escChar (e : Char) : Option Char :=
  if e = '"' then some '"'
  else if e = '\\' then some '\\'
  else if e = '/' then some '/'
  else if e = 'n' then some (Char.ofNat 10)
  else if e = 't' then some (Char.ofNat 9)
  else if e = 'r' then some (Char.ofNat 13)
  else if e = 'b' then some (Char.ofNat 8)
  else if e = 'f' then some (Char.ofNat 12)
  else none

/-- Parse the body of a JSON string (the opening quote already consumed). -/
def parseStrBody (fuel : Nat) (cs : List Char) : Option (String × List Char) :=
  match fuel, cs with
  | 0, _ => none
  | _ + 1, [] => none
  | fuel + 1, c :: cs =>
    if c = '"' then some ("", cs)
    else if c = '\\' then
      match cs with
      | [] => none
      | e :: cs2 =>
        match escChar e with
        | none => none
        | some ec =>
          match parseStrBody fuel cs2 with
          | some (s, r) => some (ec.toString ++ s, r)
          | none => none
    else
      match parseStrBody fuel cs with
      | some (s, r) => some (c.toString ++ s, r)
      | none => none

/-- Take a maximal run of decimal digits. -/
def takeDigits : List Char → List Char × List Char
  | [] => ([], [])
  | c :: cs =>
    if c.isDigit then
      match takeDigits cs with
      | (ds, r) => (c :: ds, r)
    else ([], c :: cs)

/-- Digit run to a natural number. -/
def digitsToNat (ds : List Char) : Nat :=
  ds.foldl (fun n c => n * 10 + (c.toNat - 48)) 0

/-- Parse a JSON number (integer or decimal fraction; no exponent). -/
def parseNum (cs : List Char) : Option (Json × List Char) :=
  let signed : Bool × List Char :=
    match cs with
    | c :: r => if c = '-' then (true, r) else (false, cs)
    | [] => (false, cs)
  match takeDigits signed.2 with
  | (ds, cs2) =>
    if ds = [] then none
    else if 1 < ds.length && ds.headD '0' = '0' then none
    else
      match cs2 with
      | c :: r =>
        if c = '.' then
          match takeDigits r with
          | (fs, cs3) =>
            if fs = [] then none
            else
              let m : Int := Int.ofNat (digitsToNat (ds ++ fs))
              some (Json.num (if signed.1 then -m else m) fs.length, cs3)
        else
          let m : Int := Int.ofNat (digitsToNat ds)
          some (Json.num (if signed.1 then -m else m) 0, c :: r)
      | [] =>
        let m : Int := Int.ofNat (digitsToNat ds)
        some (Json.num (if signed.1 then -m else m) 0, [])

mutual

/-- Parse one JSON value (fuel-bounded recursive-descent). -/
def parseValue (fuel : Nat) (cs : List Char) : Option (Json × List Char) :=
  match fuel with
  | 0 => none
  | fuel + 1 =>
    match skipWs cs with
    | [] => none
    | c :: rest =>
      if c = '"' then
        match parseStrBody (fuel + 1) rest with
        | some (s, r) => some (Json.str s, r)
        | none => none
      else if c = '[' then
        match skipWs rest with
        | c2 :: r2 =>
          if c2 = ']' then some (Json.arr [], r2)
          else parseArrItems fuel rest []
        | [] => none
      else if c = Char.ofNat 123 then
        match skipWs rest with
        | c2 :: r2 =>
          if c2 = Char.ofNat 125 then some (Json.obj [], r2)
          else parseObjItems fuel rest []
        | [] => none
      else if c = 't' then
        if rest.take 3 = ['r', 'u', 'e'] then some (Json.bool true, rest.drop 3) else none
      else if c = 'f' then
        if rest.take 4 = ['a', 'l', 's', 'e'] then some (Json.bool false, rest.drop 4) else none
      else if c = 'n' then
        if rest.take 3 = ['u', 'l', 'l'] then some (Json.null, rest.drop 3) else none
      else if c = '-' || c.isDigit then parseNum (c :: rest)
      else none

/-- Parse the comma-separated items of a JSON array (after `[`). -/
def parseArrItems (fuel : Nat) (cs : List Char) (acc : List Json) :
    Option (Json × List Char) :=
  match fuel with
  | 0 => none
  | fuel + 1 =>
    match parseValue fuel cs with
    | none => none
    | some (v, r) =>
      match skipWs r with
      | c :: r2 =>
        if c = ']' then some (Json.arr (v :: acc).reverse, r2)
        else if c = ',' then parseArrItems fuel r2 (v :: acc)
        else none
      | [] => none

/-- Parse the comma-separated members of a JSON object (after the opening
brace). -/
def parseObjItems (fuel : Nat) (cs : List Char) (acc : List (String × Json)) :
    Option (Json × List Char) :=
  match fuel with
  | 0 => none
  | fuel + 1 =>
    match skipWs cs with
    | [] => none
    | c :: r =>
      if c = '"' then
        match parseStrBody fuel r with
        | none => none
        | some (k, r2) =>
          match skipWs r2 with
          | [] => none
          | c2 :: r3 =>
            if c2 = ':' then
              match parseValue fuel r3 with
              | none => none
              | some (v, r4) =>
                match skipWs r4 with
                | [] => none
                | c3 :: r5 =>
                  if c3 = Char.ofNat 125 then some (Json.obj ((k, v) :: acc).reverse, r5)
                  else if c3 = ',' then parseObjItems fuel r5 ((k, v) :: acc)
                  else none
            else none
      else none

end

/-- `json.loads`: parse one JSON value and require only trailing whitespace
after it. -/
def json_loads (s : String) : Option Json :=
  match parseValue (s.length * 4 + 16) s.data with
  | some (v, rest) => if skipWs rest = [] then some v else none
  | none => none

/-- A response sent back by a route handler: either `jsonify({'error': msg}),
code` or one of the four success payloads (all with status 200). -/
inductive Resp where
  | err (msg : String) (code : Nat) : Resp
  | uploadOk (message summary : String) : Resp
  | askOk (answer : String) : Resp
  | challengeOk (questions : Json) : Resp
  | feedbackOk (feedback : List (Nat × String)) : Resp

/-- An uploaded file as the extractors see it: its (user-supplied) name,
what parsing the saved bytes as a PDF would yield, and what decoding them
as UTF-8 text would yield. -/
structure UploadedFile where
  filename : String
  pdfData : Option (List (Option String))
  txtData : Option String

/-- The extension dispatch inside `upload_document`: `extracted_text` stays
`None` when neither `endswith` test matches. -/
def extract_dispatch (f : UploadedFile) : Option String :=
  if pyEndsWith (pyLower f.filename) ".pdf" then extract_text_from_pdf f.pdfData
  else if pyEndsWith (pyLower f.filename) ".txt" then extract_text_from_txt f.txtData
  else none

/-- `upload_document` (`POST /upload`), with the abstract gateway `gemini`
standing for `get_gemini_response`.  Returns the updated store together
with the HTTP response.  `none` for `file` models a request without a
`'file'` part. -/
def upload_document (gemini : String → Option String) (store : Store)
    (file : Option UploadedFile) : Store × Resp :=
  match file with
  | none => (store, .err "No file part" 400)
  | some f =>
    if f.filename = "" then (store, .err "No selected file" 400)
    else if allowed_file f.filename then
      match pyTruthy (extract_dispatch f) with
      | none => (store, .err "Failed to extract text from document" 500)
      | some text =>
        let store2 := DocumentStore.put store f.filename text
        match pyTruthy (gemini (summary_prompt text)) with
        | some summary => (store2, .uploadOk "File uploaded and summarized successfully" summary)
        | none => (store2, .err "Failed to generate summary" 500)
    else (store, .err "File type not allowed" 400)

/-- `ask_question` (`POST /ask`). -/
def ask_question (gemini : String → Option String) (store : Store)
    (query documentName : Option String) : Resp :=
  match pyTruthy query, pyTruthy documentName with
  | some q, some dn =>
    match pyTruthy (DocumentStore.get store dn) with
    | none => .err "Document content not found. Please upload the document again." 404
    | some doc_text =>
      match pyTruthy (gemini (ask_prompt q doc_text)) with
      | some answer => .askOk answer
      | none => .err "Failed to get an answer from the assistant" 500
  | _, _ => .err "Missing query or document name" 400

/-- `generate_challenge_questions` (`POST /challenge`). -/
def generate_challenge_questions (gemini : String → Option String) (store : Store)
    (documentName : Option String) : Resp :=
  match pyTruthy documentName with
  | none => .err "Missing document name" 400
  | some dn =>
    match pyTruthy (DocumentStore.get store dn) with
    | none => .err "Document content not found." 404
    | some doc_text =>
      match pyTruthy (gemini (challenge_prompt doc_text)) with
      | none => .err "Failed to generate challenge questions" 500
      | some raw =>
        match json_loads raw with
        | some qsv => .challengeOk qsv
        | none => .err "Invalid JSON from assistant" 500

/-- The verdict recorded for one question in `evaluate_challenge_answers`:
`evaluation or "Evaluation not available."`. -/
def eval_item (gemini : String → Option String) (doc_text : String)
    (user_answers : List (String × String)) (p : Nat × String) : Nat × String :=
  (p.1,
    match pyTruthy (gemini (eval_prompt ((DocumentStore.get user_answers (toString p.1)).getD "")
        p.2 doc_text)) with
    | some ev => ev
    | none => "Evaluation not available.")

/-- `evaluate_challenge_answers` (`POST /evaluate_challenge`).  The
`userAnswers` dict is an association list keyed by decimal string indices,
read with `user_answers.get(str(index), '')`. -/
def evaluate_challenge_answers (gemini : String → Option String) (store : Store)
    (documentName : Option String) (questions : Option (List String))
    (userAnswers : Option (List (String × String))) : Resp :=
  match pyTruthy documentName, listTruthy questions, listTruthy userAnswers with
  | some dn, some qs, some ua =>
    match pyTruthy (DocumentStore.get store dn) with
    | none => .err "Document content not found." 404
    | some doc_text => .feedbackOk (qs.enum.map (eval_item gemini doc_text ua))
  | _, _, _ => .err "Missing data" 400

/-- A second definition following the spec's words (§4.1, flat sources), to
be compared with `render_txt`: walk the lines of the file (as delivered by
`readlines`, each carrying its newline) with a single continuous 1-based
counter `i`; a non-blank (post-strip) line emits `[Line i] <line>`, a blank
line emits a bare newline; the counter advances on every line, so numbering
never resets. -/
def specFlatRender : Nat → List String → String
  | _, [] => ""
  | i, l :: ls =>
    (if pyStrip l = "" then "\n" else "[Line " ++ toString i ++ "] " ++ l)
      ++ specFlatRender (i + 1) ls

/-- A second definition following the spec's words (§4.1, paginated
sources), for one page `p` (1-based): walk the page's lines with a 1-based
counter `i` that starts fresh on this page; a non-blank (post-strip) line
emits `[Page p, Line i] <line>\n`, a blank line a bare newline. -/
def specPdfLineRender : Nat → Nat → List String → String
  | _, _, [] => ""
  | p, i, l :: ls =>
    (if pyStrip l = "" then "\n"
     else "[Page " ++ toString p ++ ", Line " ++ toString i ++ "] " ++ l ++ "\n")
      ++ specPdfLineRender p (i + 1) ls

/-- A second definition following the spec's words (§4.1, paginated
sources, amended on the empty-page point): iterate pages in order with a
1-based page counter, splitting each page's extracted text into lines and
rendering them with a per-page line counter that resets to 1; a page whose
extracted text is empty (or `None`) splits into the single blank line `""`
and hence contributes exactly one bare newline. -/
def specPdfRender : Nat → List (Option String) → String
  | _, [] => ""
  | p, pg :: pgs =>
    specPdfLineRender p 1 (pySplit (pg.getD "") '\n') ++ specPdfRender (p + 1) pgs

/-- The stores reachable by the running app: the empty initial dict,
extended only by `upload_document` requests (the only write site of
`document_content` in the source). -/
inductive ReachableStore : Store → Prop where
  | empty : ReachableStore document_content
  | upload (g : String → Option String) (f : Option UploadedFile) {s : Store} :
      ReachableStore s → ReachableStore (upload_document g s f).1

/-! ## Helper lemmas -/

theorem pyTruthy_some_of {s : String} (h : s ≠ "") : pyTruthy (some s) = some s := by
  simp [pyTruthy, h]

theorem pyTruthy_eq_some {o : Option String} {t : String} :
    pyTruthy o = some t ↔ o = some t ∧ t ≠ "" := by
  cases o with
  | none => simp [pyTruthy]
  | some s =>
    simp only [pyTruthy, Option.some.injEq]
    split
    next h =>
      subst h
      constructor
      · intro h2; exact Option.noConfusion h2
      · rintro ⟨rfl, h3⟩; exact absurd rfl h3
    next h =>
      constructor
      · intro h2; injection h2 with h3; subst h3; exact ⟨rfl, h⟩
      · rintro ⟨rfl, _⟩; rfl

theorem pyTruthy_eq_none {o : Option String} :
    pyTruthy o = none ↔ o = none ∨ o = some "" := by
  cases o with
  | none => simp [pyTruthy]
  | some s =>
    by_cases h : s = ""
    · subst h; simp [pyTruthy]
    · simp [pyTruthy, h]

theorem listTruthy_some_of {α : Type} {l : List α} (h : l ≠ []) :
    listTruthy (some l) = some l := by
  cases l with
  | nil => exact absurd rfl h
  | cons a l => simp [listTruthy]

theorem get_put (s : Store) (k v k' : String) :
    DocumentStore.get (DocumentStore.put s k v) k'
      = if k = k' then some v else DocumentStore.get s k' := rfl

theorem enum_eq_enumFrom {α : Type} (l : List α) : l.enum = List.enumFrom 0 l := rfl

theorem txt_foldl_eq (ls : List String) : ∀ (n : Nat) (acc : String),
    (List.enumFrom n ls).foldl txt_step acc = acc ++ specFlatRender (n + 1) ls := by
  induction ls with
  | nil => intro n acc; simp [specFlatRender, String.append_empty]
  | cons l ls ih =>
    intro n acc
    rw [List.enumFrom, List.foldl_cons, ih]
    simp [txt_step, specFlatRender, String.append_assoc]

theorem pdf_line_foldl_eq (p : Nat) (ls : List String) : ∀ (n : Nat) (acc : String),
    (List.enumFrom n ls).foldl (pdf_line_step p) acc
      = acc ++ specPdfLineRender (p + 1) (n + 1) ls := by
  induction ls with
  | nil => intro n acc; simp [specPdfLineRender, String.append_empty]
  | cons l ls ih =>
    intro n acc
    rw [List.enumFrom, List.foldl_cons, ih]
    simp [pdf_line_step, specPdfLineRender, String.append_assoc]

theorem pdf_page_foldl_eq (pgs : List (Option String)) : ∀ (n : Nat) (acc : String),
    (List.enumFrom n pgs).foldl pdf_page_step acc = acc ++ specPdfRender (n + 1) pgs := by
  induction pgs with
  | nil => intro n acc; simp [specPdfRender, String.append_empty]
  | cons pg pgs ih =>
    intro n acc
    rw [List.enumFrom, List.foldl_cons, ih]
    rw [pdf_page_step, enum_eq_enumFrom, pdf_line_foldl_eq]
    simp [specPdfRender, String.append_assoc]

/-! ## Claim theorems -/

/-- C3: for every flat (TXT) source, extraction renders the file's lines
with a single continuous 1-based counter — each non-blank (post-strip)
line as `[Line i] <line>` where `i` is the line's 1-based position in the
whole file (blank lines consume numbers, so numbering never resets) and
each blank line as a bare newline (`specFlatRender` transcribes exactly
that rule); in particular the file with lines `["Hello", "", "World"]`
extracts to `"[Line 1] Hello\n\n[Line 3] World\n"`. -/
theorem claim_C3_flat_extraction :
    (∀ content : String, render_txt content = specFlatRender 1 (readlines content))
    ∧ extract_text_from_txt (some "Hello\n\nWorld\n")
        = some "[Line 1] Hello\n\n[Line 3] World\n" := by
  constructor
  · intro content
    rw [render_txt, enum_eq_enumFrom, txt_foldl_eq, String.empty_append]
  · rfl

/-- C4 counterexample: in the code, a PDF page that yields no extractable
text does NOT contribute zero characters of output — a one-page document
whose only page has no text extracts to `"\n"`, not to `""`. -/
theorem claim_C4_counterexample :
    extract_text_from_pdf (some [none]) = some "\n"
    ∧ ("\n" : String) ≠ "" := by
  constructor
  · rfl
  · decide

/-- C4 (amended): for every paginated (PDF) source, extraction iterates
pages in order, rendering each page's lines with 1-based page and line
counters, the line counter resetting at each page boundary; non-blank
(post-strip) lines emit `[Page p, Line i] <line>\n`, blank lines a bare
newline; and a page that yields no extractable text contributes exactly
one bare newline (it is treated as a single blank line), without raising
an error (`specPdfRender` transcribes exactly that rule). -/
theorem claim_C4_pdf_extraction :
    (∀ pages : List (Option String),
      extract_text_from_pdf (some pages) = some (specPdfRender 1 pages))
    ∧ extract_text_from_pdf (some [none]) = some "\n" := by
  constructor
  · intro pages
    show some (render_pdf pages) = some (specPdfRender 1 pages)
    rw [render_pdf, enum_eq_enumFrom, pdf_page_foldl_eq, String.empty_append]
  · rfl

/-- C1: for every EvaluateChallenge request with a known (truthy) document
and non-empty questions and answers (the request's truthiness guard), the
feedback mapping has exactly `k = qs.length` entries keyed `0..k-1` in
order; an item whose generation call yields no usable result (falsy) gets
the literal `"Evaluation not available."`, and an item whose call yields a
usable verdict gets that verdict — each item depending only on its own
generation call. -/
theorem claim_C1_feedback (gemini : String → Option String) (store : Store)
    (dn doc : String) (qs : List String) (ua : List (String × String))
    (hdn : dn ≠ "") (hqs : qs ≠ []) (hua : ua ≠ [])
    (hget : DocumentStore.get store dn = some doc) (hdoc : doc ≠ "") :
    ∃ fb : List (Nat × String),
      evaluate_challenge_answers gemini store (some dn) (some qs) (some ua)
          = Resp.feedbackOk fb
      ∧ fb.length = qs.length
      ∧ fb.map Prod.fst = List.range qs.length
      ∧ ∀ i : Nat, i < qs.length →
          (pyTruthy (gemini (eval_prompt ((DocumentStore.get ua (toString i)).getD "")
              (qs.getD i "") doc)) = none →
            fb.getD i (0, "") = (i, "Evaluation not available."))
          ∧ ∀ v : String,
            pyTruthy (gemini (eval_prompt ((DocumentStore.get ua (toString i)).getD "")
                (qs.getD i "") doc)) = some v →
              fb.getD i (0, "") = (i, v) := by
  refine ⟨qs.enum.map (eval_item gemini doc ua), ?_, ?_, ?_, ?_⟩
  · simp only [evaluate_challenge_answers, pyTruthy_some_of hdn, listTruthy_some_of hqs,
      listTruthy_some_of hua, hget, pyTruthy_some_of hdoc]
  · simp [List.enum_length]
  · rw [List.map_map]
    have hf : Prod.fst ∘ eval_item gemini doc ua = Prod.fst := funext fun p => rfl
    rw [hf, List.enum_map_fst]
  · intro i hi
    have hgetD : (qs.enum.map (eval_item gemini doc ua)).getD i (0, "")
        = eval_item gemini doc ua (i, qs.getD i "") := by
      rw [List.getD_eq_getElem?_getD, List.getElem?_map, List.getElem?_enum,
        List.getElem?_eq_getElem hi]
      simp [List.getD_eq_getElem?_getD, List.getElem?_eq_getElem hi]
    constructor
    · intro hnone
      rw [hgetD]
      rw [List.getD_eq_getElem?_getD] at hnone
      simp [eval_item, hnone]
    · intro v hsome
      rw [hgetD]
      rw [List.getD_eq_getElem?_getD] at hsome
      simp [eval_item, hsome]

/-- C2 counterexample: model output `"42"` is valid JSON but not a
3-element array of strings, yet the Challenge handler returns it as a
200 success payload (`questions: 42`) instead of a terminal error — the
decoded value is passed through with no shape validation. -/
theorem claim_C2_counterexample :
    generate_challenge_questions (fun _ => some "42")
        (DocumentStore.put document_content "doc.txt" "[Line 1] x\n") (some "doc.txt")
      = Resp.challengeOk (Json.num 42 0)
    ∧ Resp.challengeOk (Json.num 42 0) ≠ Resp.err "Invalid JSON from assistant" 500
    ∧ Resp.challengeOk (Json.num 42 0) ≠ Resp.err "Failed to generate challenge questions" 500 := by
  refine ⟨rfl, fun h => ?_, fun h => ?_⟩ <;> exact Resp.noConfusion h

/-- C2 (amended): for every Challenge request that reaches decoding (known
truthy document, truthy raw model output), output that is not valid JSON is
rejected with the terminal error `"Invalid JSON from assistant"` (500) and
never silently coerced; but output that decodes to ANY JSON value —
including values other than a 3-element array of strings — is returned
as-is in `questions` with no shape validation. -/
theorem claim_C2_challenge_decode (gemini : String → Option String) (store : Store)
    (dn doc raw : String)
    (hdn : dn ≠ "") (hget : DocumentStore.get store dn = some doc) (hdoc : doc ≠ "")
    (hraw : gemini (challenge_prompt doc) = some raw) (hraw2 : raw ≠ "") :
    (json_loads raw = none →
      generate_challenge_questions gemini store (some dn)
        = Resp.err "Invalid JSON from assistant" 500)
    ∧ ∀ v : Json, json_loads raw = some v →
        generate_challenge_questions gemini store (some dn) = Resp.challengeOk v := by
  constructor
  · intro hnone
    simp only [generate_challenge_questions, pyTruthy_some_of hdn, hget,
      pyTruthy_some_of hdoc, hraw, pyTruthy_some_of hraw2, hnone]
  · intro v hsome
    simp only [generate_challenge_questions, pyTruthy_some_of hdn, hget,
      pyTruthy_some_of hdoc, hraw, pyTruthy_some_of hraw2, hsome]

/-- C2 witness for the amended theorem: with a known document and raw model
output `'["Q1", "Q2", "Q3"]'`, the handler returns exactly the decoded
array. -/
theorem claim_C2_challenge_decode_witness :
    ("doc.txt" : String) ≠ ""
    ∧ DocumentStore.get [("doc.txt", "[Line 1] x\n")] "doc.txt" = some "[Line 1] x\n"
    ∧ json_loads "[\"Q1\", \"Q2\", \"Q3\"]"
        = some (Json.arr [Json.str "Q1", Json.str "Q2", Json.str "Q3"])
    ∧ generate_challenge_questions (fun _ => some "[\"Q1\", \"Q2\", \"Q3\"]")
        [("doc.txt", "[Line 1] x\n")] (some "doc.txt")
        = Resp.challengeOk (Json.arr [Json.str "Q1", Json.str "Q2", Json.str "Q3"]) :=
  ⟨by decide, rfl, rfl,
    (claim_C2_challenge_decode (fun _ => some "[\"Q1\", \"Q2\", \"Q3\"]")
        [("doc.txt", "[Line 1] x\n")] "doc.txt" "[Line 1] x\n" "[\"Q1\", \"Q2\", \"Q3\"]"
        (by decide) rfl (by decide) rfl (by decide)).2
      (Json.arr [Json.str "Q1", Json.str "Q2", Json.str "Q3"]) rfl⟩

/-- C5: re-uploading the same identifier overwrites the stored text
(last-write-wins): after storing `t1` then `t2` under `id`, the store
returns `t2`; an Ask against the twice-written store behaves identically
to one against a store holding only the latest text, and in particular its
prompt is built from `t2` alone (the earlier `t1` nowhere occurs). -/
theorem claim_C5_overwrite (gemini : String → Option String) (s : Store)
    (id t1 t2 q : String) (ht2 : t2 ≠ "") (hq : q ≠ "") (hid : id ≠ "") :
    DocumentStore.get (DocumentStore.put (DocumentStore.put s id t1) id t2) id = some t2
    ∧ ask_question gemini (DocumentStore.put (DocumentStore.put s id t1) id t2)
        (some q) (some id)
      = ask_question gemini (DocumentStore.put s id t2) (some q) (some id)
    ∧ ask_question gemini (DocumentStore.put (DocumentStore.put s id t1) id t2)
        (some q) (some id)
      = (match pyTruthy (gemini (ask_prompt q t2)) with
         | some answer => Resp.askOk answer
         | none => Resp.err "Failed to get an answer from the assistant" 500) := by
  have hgt : DocumentStore.get (DocumentStore.put (DocumentStore.put s id t1) id t2) id
      = some t2 := by
    rw [get_put, if_pos rfl]
  have hgt2 : DocumentStore.get (DocumentStore.put s id t2) id = some t2 := by
    rw [get_put, if_pos rfl]
  refine ⟨hgt, ?_, ?_⟩
  · simp only [ask_question, pyTruthy_some_of hq, pyTruthy_some_of hid, hgt, hgt2]
  · simp only [ask_question, pyTruthy_some_of hq, pyTruthy_some_of hid, hgt,
      pyTruthy_some_of ht2]

/-- C5 witness at a concrete double upload. -/
theorem claim_C5_overwrite_witness :
    ("new" : String) ≠ ""
    ∧ DocumentStore.get
        (DocumentStore.put (DocumentStore.put [] "a.txt" "old") "a.txt" "new") "a.txt"
      = some "new" :=
  ⟨by decide,
    (claim_C5_overwrite (fun _ => none) [] "a.txt" "old" "new" "q"
      (by decide) (by decide) (by decide)).1⟩

/-- C1 witness: one question, failing generation — the single feedback
entry is keyed 0 and carries the literal fallback. -/
theorem claim_C1_feedback_witness :
    ("d.txt" : String) ≠ ""
    ∧ DocumentStore.get [("d.txt", "x")] "d.txt" = some "x"
    ∧ ∃ fb : List (Nat × String),
        evaluate_challenge_answers (fun _ => none) [("d.txt", "x")]
            (some "d.txt") (some ["Q1"]) (some [("0", "A")]) = Resp.feedbackOk fb
        ∧ fb.length = 1
        ∧ fb.map Prod.fst = List.range 1
        ∧ fb.getD 0 (0, "") = (0, "Evaluation not available.") := by
  refine ⟨by decide, rfl, ?_⟩
  obtain ⟨fb, h1, h2, h3, h4⟩ :=
    claim_C1_feedback (fun _ => none) [("d.txt", "x")] "d.txt" "x" ["Q1"] [("0", "A")]
      (by decide) (by decide) (by decide) rfl (by decide)
  exact ⟨fb, h1, h2, h3, (h4 0 (by decide)).1 rfl⟩

/-- C6: with a truthy document name absent from the store, Ask, Challenge
and EvaluateChallenge all answer the NotFound error with status 404, and a
404 NotFound response differs from both the ExtractionFailure and the
GenerationFailure responses (status 500). -/
theorem claim_C6_notfound (gemini : String → Option String) (s : Store) (dn q : String)
    (qs : List String) (ua : List (String × String))
    (hdn : dn ≠ "") (hq : q ≠ "") (hqs : qs ≠ []) (hua : ua ≠ [])
    (habsent : DocumentStore.get s dn = none) :
    ask_question gemini s (some q) (some dn)
        = Resp.err "Document content not found. Please upload the document again." 404
    ∧ generate_challenge_questions gemini s (some dn)
        = Resp.err "Document content not found." 404
    ∧ evaluate_challenge_answers gemini s (some dn) (some qs) (some ua)
        = Resp.err "Document content not found." 404
    ∧ (∀ m : String, Resp.err m 404 ≠ Resp.err "Failed to extract text from document" 500)
    ∧ (∀ m : String, Resp.err m 404 ≠ Resp.err "Failed to get an answer from the assistant" 500) := by
  have hnone : pyTruthy (DocumentStore.get s dn) = none := by rw [habsent]; rfl
  refine ⟨?_, ?_, ?_, ?_, ?_⟩
  · simp only [ask_question, pyTruthy_some_of hq, pyTruthy_some_of hdn, hnone]
  · simp only [generate_challenge_questions, pyTruthy_some_of hdn, hnone]
  · simp only [evaluate_challenge_answers, pyTruthy_some_of hdn, listTruthy_some_of hqs,
      listTruthy_some_of hua, hnone]
  · intro m h; injection h with h1 h2; exact absurd h2 (by decide)
  · intro m h; injection h with h1 h2; exact absurd h2 (by decide)

/-- C6 witness: the `missing.pdf` scenario — Ask on an empty store answers
the 404 NotFound error. -/
theorem claim_C6_notfound_witness :
    DocumentStore.get [] "missing.pdf" = none
    ∧ ask_question (fun _ => none) [] (some "q") (some "missing.pdf")
        = Resp.err "Document content not found. Please upload the document again." 404 :=
  ⟨rfl, (claim_C6_notfound (fun _ => none) [] "missing.pdf" "q" ["Q1"] [("0", "A")]
      (by decide) (by decide) (by decide) (by decide) rfl).1⟩

/-- C7: for an Upload request that passes the filename checks, the
extraction-failure error (500, terminal for the request) is returned
exactly when the declared-kind parse fails (`extract_dispatch f = none`)
or extraction yields an empty result (`some ""`), and in that case the
store is left unchanged — nothing is stored. -/
theorem claim_C7_extraction_failure (gemini : String → Option String) (store : Store)
    (f : UploadedFile) (hfn : f.filename ≠ "") (hall : allowed_file f.filename = true) :
    ((upload_document gemini store (some f)).2
        = Resp.err "Failed to extract text from document" 500
      ↔ (extract_dispatch f = none ∨ extract_dispatch f = some ""))
    ∧ ((extract_dispatch f = none ∨ extract_dispatch f = some "") →
        (upload_document gemini store (some f)).1 = store) := by
  cases hpt : pyTruthy (extract_dispatch f) with
  | none =>
    have hdisj := pyTruthy_eq_none.mp hpt
    refine ⟨⟨fun _ => hdisj, fun _ => ?_⟩, fun _ => ?_⟩
    · simp [upload_document, hfn, hall, hpt]
    · simp [upload_document, hfn, hall, hpt]
  | some t =>
    obtain ⟨hx, ht⟩ := pyTruthy_eq_some.mp hpt
    have hcontra : ¬(extract_dispatch f = none ∨ extract_dispatch f = some "") := by
      rintro (h | h)
      · rw [h] at hx; exact Option.noConfusion hx
      · rw [h] at hx; injection hx with h2; exact ht h2.symm
    refine ⟨⟨fun hresp => ?_, fun hdisj => absurd hdisj hcontra⟩,
      fun hdisj => absurd hdisj hcontra⟩
    exfalso
    cases hgem : pyTruthy (gemini (summary_prompt t)) with
    | none =>
      simp only [upload_document, hfn, hall, hpt, hgem] at hresp
      simp at hresp
    | some a =>
      simp only [upload_document, hfn, hall, hpt, hgem] at hresp
      simp at hresp

/-- C7 witness: an unreadable PDF upload is answered with the extraction
error and stores nothing. -/
theorem claim_C7_extraction_failure_witness :
    allowed_file "bad.pdf" = true
    ∧ (upload_document (fun _ => none) []
        (some { filename := "bad.pdf", pdfData := none, txtData := none })).2
      = Resp.err "Failed to extract text from document" 500
    ∧ (upload_document (fun _ => none) []
        (some { filename := "bad.pdf", pdfData := none, txtData := none })).1 = [] :=
  ⟨by decide,
   (claim_C7_extraction_failure (fun _ => none) []
       { filename := "bad.pdf", pdfData := none, txtData := none }
       (by decide) (by decide)).1.mpr (Or.inl rfl),
   (claim_C7_extraction_failure (fun _ => none) []
       { filename := "bad.pdf", pdfData := none, txtData := none }
       (by decide) (by decide)).2 (Or.inl rfl)⟩

/-- C8: the Model Gateway yields an absence of result exactly when its one
remote call errors or returns no usable content (no candidate or no
content part); its outcome depends only on that single call's result (no
retry, no second call shape); and the orchestrators surface the absence as
a 500 server-side failure for the single-shot tasks (Ask, and summarize on
Upload). -/
theorem claim_C8_gateway :
    (∀ (remote : String → Except String GeminiApiResponse) (prompt : String),
      get_gemini_response remote prompt = none ↔
        ((∃ e, remote prompt = .error e)
         ∨ ∃ r, remote prompt = .ok r ∧
             (r.candidates = []
              ∨ ∃ c cs, r.candidates = c :: cs ∧ c.content.parts = [])))
    ∧ (∀ (remote remote2 : String → Except String GeminiApiResponse) (prompt : String),
        remote prompt = remote2 prompt →
        get_gemini_response remote prompt = get_gemini_response remote2 prompt)
    ∧ (∀ (remote : String → Except String GeminiApiResponse) (s : Store) (q dn doc : String),
        DocumentStore.get s dn = some doc → doc ≠ "" → q ≠ "" → dn ≠ "" →
        get_gemini_response remote (ask_prompt q doc) = none →
        ask_question (get_gemini_response remote) s (some q) (some dn)
          = Resp.err "Failed to get an answer from the assistant" 500)
    ∧ (∀ (remote : String → Except String GeminiApiResponse) (store : Store)
        (f : UploadedFile) (t : String),
        f.filename ≠ "" → allowed_file f.filename = true →
        extract_dispatch f = some t → t ≠ "" →
        get_gemini_response remote (summary_prompt t) = none →
        (upload_document (get_gemini_response remote) store (some f)).2
          = Resp.err "Failed to generate summary" 500) := by
  refine ⟨?_, ?_, ?_, ?_⟩
  · intro remote prompt
    cases hr : remote prompt with
    | error e =>
      constructor
      · intro _; exact Or.inl ⟨e, rfl⟩
      · intro _; simp [get_gemini_response, hr]
    | ok r =>
      cases hc : r.candidates with
      | nil =>
        constructor
        · intro _; exact Or.inr ⟨r, rfl, Or.inl hc⟩
        · intro _; simp [get_gemini_response, hr, hc]
      | cons c cs =>
        cases hp : c.content.parts with
        | nil =>
          constructor
          · intro _; exact Or.inr ⟨r, rfl, Or.inr ⟨c, cs, hc, hp⟩⟩
          · intro _; simp [get_gemini_response, hr, hc, hp]
        | cons p ps =>
          constructor
          · intro habs
            simp [get_gemini_response, hr, hc, hp] at habs
          · rintro (⟨e, he⟩ | ⟨r2, hr2, h⟩)
            · exact Except.noConfusion he
            · injection hr2 with hr3
              subst hr3
              rcases h with h | ⟨c2, cs2, hcc, hpp⟩
              · rw [hc] at h; exact List.noConfusion h
              · rw [hc] at hcc
                injection hcc with hc1 hc2
                subst hc1
                rw [hp] at hpp
                exact List.noConfusion hpp
  · intro remote remote2 prompt h
    simp [get_gemini_response, h]
  · intro remote s q dn doc hget hdoc hq hdn hnone
    have h2 : pyTruthy (get_gemini_response remote (ask_prompt q doc)) = none := by
      rw [hnone]; rfl
    simp only [ask_question, pyTruthy_some_of hq, pyTruthy_some_of hdn, hget,
      pyTruthy_some_of hdoc, h2]
  · intro remote store f t hfn hall hex ht hfail
    have hpt : pyTruthy (extract_dispatch f) = some t := pyTruthy_eq_some.mpr ⟨hex, ht⟩
    have hg : pyTruthy (get_gemini_response remote (summary_prompt t)) = none := by
      rw [hfail]; rfl
    simp [upload_document, hfn, hall, hpt, hg]

/-- C8 witness: a remote call that raises makes Ask answer the 500
generation-failure error. -/
theorem claim_C8_gateway_witness :
    DocumentStore.get [("d.txt", "x")] "d.txt" = some "x"
    ∧ get_gemini_response (fun _ => Except.error "boom") (ask_prompt "q" "x") = none
    ∧ ask_question (get_gemini_response (fun _ => Except.error "boom"))
        [("d.txt", "x")] (some "q") (some "d.txt")
      = Resp.err "Failed to get an answer from the assistant" 500 :=
  ⟨rfl, rfl,
   claim_C8_gateway.2.2.1 (fun _ => Except.error "boom") [("d.txt", "x")]
     "q" "d.txt" "x" rfl (by decide) (by decide) (by decide) rfl⟩

/-- C9: an Upload whose extraction succeeds but whose summarization call
fails still stores the extracted text under the filename before returning
the 500 error — the store update precedes the summary call, so a
subsequent Ask for that filename does not answer NotFound and operates on
the newly stored content. -/
theorem claim_C9_store_before_summary (gemini gemini2 : String → Option String)
    (store : Store) (f : UploadedFile) (t q : String)
    (hfn : f.filename ≠ "") (hall : allowed_file f.filename = true)
    (hex : extract_dispatch f = some t) (ht : t ≠ "")
    (hfail : pyTruthy (gemini (summary_prompt t)) = none) (hq : q ≠ "") :
    (upload_document gemini store (some f)).1 = DocumentStore.put store f.filename t
    ∧ (upload_document gemini store (some f)).2 = Resp.err "Failed to generate summary" 500
    ∧ DocumentStore.get (upload_document gemini store (some f)).1 f.filename = some t
    ∧ ask_question gemini2 (upload_document gemini store (some f)).1
        (some q) (some f.filename)
      ≠ Resp.err "Document content not found. Please upload the document again." 404 := by
  have hpt : pyTruthy (extract_dispatch f) = some t := pyTruthy_eq_some.mpr ⟨hex, ht⟩
  have h1 : (upload_document gemini store (some f)).1
      = DocumentStore.put store f.filename t := by
    simp [upload_document, hfn, hall, hpt, hfail]
  have h2 : (upload_document gemini store (some f)).2
      = Resp.err "Failed to generate summary" 500 := by
    simp [upload_document, hfn, hall, hpt, hfail]
  have h3 : DocumentStore.get (upload_document gemini store (some f)).1 f.filename
      = some t := by
    rw [h1, get_put, if_pos rfl]
  refine ⟨h1, h2, h3, ?_⟩
  intro hbad
  have hdt : pyTruthy (DocumentStore.get (upload_document gemini store (some f)).1
      f.filename) = some t := by rw [h3]; exact pyTruthy_some_of ht
  simp only [ask_question, pyTruthy_some_of hq, pyTruthy_some_of hfn, hdt] at hbad
  cases hg : pyTruthy (gemini2 (ask_prompt q t)) with
  | none =>
    rw [hg] at hbad
    injection hbad with hm hc
    exact absurd hm (by decide)
  | some a =>
    rw [hg] at hbad
    exact Resp.noConfusion hbad

/-- C9 witness: uploading `n.txt` with a failing summarizer stores the
extracted text, and a later Ask for `n.txt` is not NotFound. -/
theorem claim_C9_store_before_summary_witness :
    extract_dispatch { filename := "n.txt", pdfData := none, txtData := some "Hello\n" }
      = some "[Line 1] Hello\n"
    ∧ (upload_document (fun _ => none) []
        (some { filename := "n.txt", pdfData := none, txtData := some "Hello\n" })).1
      = DocumentStore.put [] "n.txt" "[Line 1] Hello\n"
    ∧ ask_question (fun _ => some "ans")
        (upload_document (fun _ => none) []
          (some { filename := "n.txt", pdfData := none, txtData := some "Hello\n" })).1
        (some "q") (some "n.txt")
      ≠ Resp.err "Document content not found. Please upload the document again." 404 :=
  ⟨rfl,
   (claim_C9_store_before_summary (fun _ => none) (fun _ => some "ans") []
     { filename := "n.txt", pdfData := none, txtData := some "Hello\n" }
     "[Line 1] Hello\n" "q" (by decide) (by decide) rfl (by decide) rfl (by decide)).1,
   (claim_C9_store_before_summary (fun _ => none) (fun _ => some "ans") []
     { filename := "n.txt", pdfData := none, txtData := some "Hello\n" }
     "[Line 1] Hello\n" "q" (by decide) (by decide) rfl (by decide) rfl (by decide)).2.2.2⟩

/-- Every `upload_document` call either leaves the store unchanged or adds
one binding with a non-empty text (the `if not extracted_text` guard
precedes the store write). -/
theorem upload_store_shape (g : String → Option String) (s : Store)
    (f : Option UploadedFile) :
    (upload_document g s f).1 = s
    ∨ ∃ fl t : String, t ≠ "" ∧ (upload_document g s f).1 = DocumentStore.put s fl t := by
  cases f with
  | none => exact Or.inl rfl
  | some f =>
    by_cases hfn : f.filename = ""
    · left; simp [upload_document, hfn]
    · by_cases hall : allowed_file f.filename
      · cases hpt : pyTruthy (extract_dispatch f) with
        | none => left; simp [upload_document, hfn, hall, hpt]
        | some t =>
          obtain ⟨_, ht⟩ := pyTruthy_eq_some.mp hpt
          right
          refine ⟨f.filename, t, ht, ?_⟩
          cases hg : pyTruthy (g (summary_prompt t)) with
          | none => simp [upload_document, hfn, hall, hpt, hg]
          | some a => simp [upload_document, hfn, hall, hpt, hg]
      · left; simp [upload_document, hfn, hall]

/-- In every reachable store, all stored values are non-empty strings. -/
theorem reachable_values_nonempty {s : Store} (hs : ReachableStore s) :
    ∀ k v, DocumentStore.get s k = some v → v ≠ "" := by
  induction hs with
  | empty =>
    intro k v h
    simp [DocumentStore.get, document_content] at h
  | upload g f hs ih =>
    intro k v h
    rcases upload_store_shape g _ f with heq | ⟨fl, t, ht, heq⟩
    · rw [heq] at h; exact ih k v h
    · rw [heq, get_put] at h
      by_cases hk : fl = k
      · rw [if_pos hk] at h
        injection h with h2
        rw [← h2]; exact ht
      · rw [if_neg hk] at h; exact ih k v h

/-- C10: in every store reachable by the running app, stored values are
non-empty (Upload stores extracted text only after the non-emptiness
check), so the orchestrators' falsy-lookup test signals NotFound exactly
when the identifier has no entry at all. -/
theorem claim_C10_nonempty_invariant (s : Store) (hs : ReachableStore s) :
    (∀ k v, DocumentStore.get s k = some v → v ≠ "")
    ∧ ∀ (gemini : String → Option String) (q dn : String), q ≠ "" → dn ≠ "" →
        (ask_question gemini s (some q) (some dn)
            = Resp.err "Document content not found. Please upload the document again." 404
          ↔ DocumentStore.get s dn = none) := by
  refine ⟨reachable_values_nonempty hs, ?_⟩
  intro gemini q dn hq hdn
  cases hget : DocumentStore.get s dn with
  | none =>
    have hnone : pyTruthy (DocumentStore.get s dn) = none := by rw [hget]; rfl
    simp only [ask_question, pyTruthy_some_of hq, pyTruthy_some_of hdn, hnone]
  | some v =>
    have hv : v ≠ "" := reachable_values_nonempty hs dn v hget
    have hsome : pyTruthy (DocumentStore.get s dn) = some v := by
      rw [hget]; exact pyTruthy_some_of hv
    simp only [ask_question, pyTruthy_some_of hq, pyTruthy_some_of hdn, hsome]
    constructor
    · intro hbad
      cases hg : pyTruthy (gemini (ask_prompt q v)) with
      | none =>
        rw [hg] at hbad
        injection hbad with hm hc
        exact absurd hm (by decide)
      | some a =>
        rw [hg] at hbad
        exact Resp.noConfusion hbad
    · intro hbad
      exact Option.noConfusion hbad

/-- C10 witness: on the (reachable) empty store, Ask's NotFound answer is
equivalent to absence of the key. -/
theorem claim_C10_nonempty_invariant_witness :
    ("q" : String) ≠ ""
    ∧ (ask_question (fun _ => none) [] (some "q") (some "other.txt")
          = Resp.err "Document content not found. Please upload the document again." 404
        ↔ DocumentStore.get [] "other.txt" = none) :=
  ⟨by decide,
   (claim_C10_nonempty_invariant [] ReachableStore.empty).2 (fun _ => none) "q" "other.txt"
     (by decide) (by decide)⟩
